import Mathlib

/-!
Shallow embedding of the flow-run worker core (`src/prefect/workers/base.py`):
the job-configuration value object, the admission loop of a poll cycle, the
per-run submitter pipeline, and the backend-sync step.  External collaborators
(the orchestration client, the settings snapshot, the infrastructure backend)
are abstracted into an environment record `ClientEnv` of oracles describing
the outcome of each external call; every worker-observable effect is recorded
as a `WEvent` in an explicit trace, and the worker-local mutable state (the
in-flight set and the capacity-limiter tokens) is threaded explicitly.
-/

/-- Kinds of orchestration states the worker proposes or inspects
(`prefect.states`: Pending, Failed, Crashed; plus the kinds it may receive). -/
inductive StateType where
  | scheduled
  | pending
  | running
  | completed
  | failed
  | crashed
  | cancelled
deriving DecidableEq, Repr

/-- Remote deployment record; only the fields consulted by the worker core. -/
structure Deployment where
  id : Nat
  dname : String
  storage_document_id : Option Nat
deriving DecidableEq, Repr

/-- Remote work-pool record.  `base_job_template := none` models a pool whose
template field is empty (falsy in the source). -/
structure WorkPool where
  pname : String
  ptype : String
  base_job_template : Option Nat
deriving DecidableEq, Repr

/-- Flow run, minimally the fields read by the worker core. -/
structure FlowRun where
  id : Nat
  fname : String
  deployment_id : Option Nat
  flow_id : Nat
  next_scheduled_start_time : Int
deriving DecidableEq, Repr

/-- Entry of the scheduled-runs query response
(`WorkerFlowRunResponse.flow_run`). -/
structure WorkerFlowRunResponse where
  flow_run : FlowRun
deriving DecidableEq, Repr

/-- Result returned by the abstract infrastructure `run` operation
(`BaseWorkerResult`): an identifier and an exit status code. -/
structure BaseWorkerResult where
  identifier : String
  status_code : Int
deriving DecidableEq, Repr

/-- Truthiness of a `BaseWorkerResult` (`__bool__`): true iff the status code
is zero. -/
def workerResultBool (r : BaseWorkerResult) : Bool :=
  r.status_code == 0

/-! ## Job configuration (`BaseJobConfiguration`) -/

/-- The job-configuration value object.  `env` values are `Option String`
because the source allows explicit nulls that are dropped at preparation. -/
structure BaseJobConfiguration where
  command : Option String
  jenv : List (String × Option String)
  labels : List (String × String)
  jname : Option String
deriving DecidableEq, Repr

/-- Validator `_coerce_command`: an empty (falsy) command becomes `None`. -/
def _coerce_command (v : Option String) : Option String :=
  match v with
  | none => none
  | some s => if s = "" then none else some s

/-- Default command for a flow-run job (`_base_flow_run_command`). -/
def _base_flow_run_command : String :=
  "python -m prefect.engine"

/-- Python `a or b` specialised to an optional string versus a string:
yields `b` when `a` is absent or empty (falsy), else `a`. -/
def pyOrStr (a : Option String) (b : String) : Option String :=
  match a with
  | none => some b
  | some s => if s = "" then some b else some s

/-- Python dict merge as used by `{**a, **b}`: keys of `a` in order with
values overridden by `b`, followed by the keys of `b` absent from `a`. -/
def dictUpdate {V : Type} (a b : List (String × V)) : List (String × V) :=
  a.map (fun kv =>
    match b.find? (fun kv2 => kv2.1 == kv.1) with
    | some kv2 => (kv.1, kv2.2)
    | none => kv)
  ++ b.filter (fun kv2 => a.all (fun kv => !(kv.1 == kv2.1)))

/-- Hex form of the run id, modelling `flow_run.id.hex`. -/
def uuidHex (n : Nat) : String :=
  (Nat.toDigits 16 n).asString

/-- Environment contributed for the flow run
(`_base_flow_run_environment`). -/
def _base_flow_run_environment (fr : FlowRun) : List (String × Option String) :=
  [("PREFECT__FLOW_RUN_ID", some (uuidHex fr.id))]

/-- Labels contributed for the flow run (`_base_flow_run_labels`); the
version string comes from the enclosing package and is passed in. -/
def _base_flow_run_labels (fr : FlowRun) (version : String) :
    List (String × String) :=
  [("prefect.io/flow-run-id", toString fr.id),
   ("prefect.io/flow-run-name", fr.fname),
   ("prefect.io/version", version)]

/-- `prepare_for_flow_run`: overlays flow-run context onto a rendered
configuration.  `baseEnvironment` models `_base_environment()` (the settings
snapshot), and `deployment_labels` / `flow_labels` model the label
dictionaries derived from the deployment and flow records, all external to
the core. -/
def prepare_for_flow_run (cfg : BaseJobConfiguration) (fr : FlowRun)
    (baseEnvironment : List (String × Option String))
    (deployment_labels flow_labels : List (String × String))
    (version : String) : BaseJobConfiguration :=
  { command := pyOrStr cfg.command _base_flow_run_command
    jenv := (dictUpdate (dictUpdate baseEnvironment
               (_base_flow_run_environment fr)) cfg.jenv).filter
             (fun kv => kv.2.isSome)
    labels := dictUpdate (dictUpdate (dictUpdate
                (_base_flow_run_labels fr version) deployment_labels)
                flow_labels) cfg.labels
    jname := pyOrStr cfg.jname fr.fname }

/-! ## Prefetch window arithmetic -/

/-- Python `int()` applied to a number: truncation toward zero. -/
def pyInt (q : ℚ) : Int :=
  if 0 ≤ q then ⌊q⌋ else ⌈q⌉

/-! ## Worker effects, environment, and state -/

/-- Payload handed to the `task_status.started` callback: an infrastructure
identifier, the captured exception, or no payload (`started()`). -/
inductive StartPayload where
  | ident (identifier : String)
  | excPayload
  | unitPayload
deriving DecidableEq, Repr

/-- Behaviour of the abstract infrastructure `run` call for a given flow run,
as seen by `_submit_run_and_capture_errors`: raise before the started
callback, start then raise while monitored, start then return with a status
code, or return without ever reporting started. -/
inductive RunBehavior where
  | raisesBeforeStarted
  | startsThenRaises (identifier : String)
  | startsThenReturns (identifier : String) (status_code : Int)
  | returnsWithoutStarted (identifier : String) (status_code : Int)
deriving DecidableEq, Repr

/-- Outcome of a `propose_state` call against the server: a returned state,
an `Abort` signal, or some other raised exception. -/
inductive ProposeOutcome where
  | ok (returned : StateType)
  | abortSignal
  | raisesExc
deriving DecidableEq, Repr

/-- Value produced by `_submit_run_and_capture_errors`: either a captured
exception (returned, never raised to the task group) or a worker result. -/
inductive CaptureOutcome where
  | excResult
  | okResult (result : BaseWorkerResult)
deriving DecidableEq, Repr

/-- Worker-observable effects, in program order: client calls, the
infrastructure call, the started callback, limiter operations, the
submitted-flow-run event, and the log lines the claims mention. -/
inductive WEvent where
  | readDeployment (deploymentId : Nat)
  | readFlow (flowId : Nat)
  | readWorkPool
  | createWorkPool
  | updateWorkPool
  | sendWorkerHeartbeat
  | getScheduledRuns (scheduledBefore : Int)
  | proposeState (runId : Nat) (target : StateType) (message : String)
  | runInfra (runId : Nat)
  | startedCb (runId : Nat) (payload : StartPayload)
  | updateFlowRun (runId : Nat) (infrastructurePid : String)
  | acquireSlot (runId : Nat)
  | releaseSlot (runId : Nat)
  | emitSubmittedEvent (runId : Nat)
  | logWarnPoolNotFound
  | logInfoPoolCreated
  | logWarnTypeMismatch
  | logInfoLimitReached
  | logPrecheckFailed (runId : Nat)
deriving DecidableEq, Repr

/-- Environment of oracles: answers of the orchestration client and of the
infrastructure backend to each external call the worker may make. -/
structure ClientEnv where
  now : Int
  deployments : Nat → Deployment
  readWorkPoolResult : Option WorkPool
  createdWorkPool : WorkPool
  scheduledRunsResult : Option (List WorkerFlowRunResponse)
  pendingOutcome : Nat → ProposeOutcome
  configOk : Nat → Bool
  runBehavior : Nat → RunBehavior
  updateFlowRunRaises : Bool

/-- Worker-local state: identity and options fixed at construction, the
cached work pool, the limiter tokens currently borrowed (by run id), and the
in-flight set `_submitting_flow_run_ids`. -/
structure WorkerState where
  workerType : String
  createPoolIfNotFound : Bool
  workPool : Option WorkPool
  defaultBaseJobTemplate : Nat
  prefetchSeconds : ℚ
  hasLimiter : Bool
  limit : Nat
  borrowed : List Nat
  submitting : List Nat
deriving DecidableEq, Repr

/-- Events plus a boolean result (used for the precheck, the Pending
proposal, and configuration resolution). -/
structure FlagResult where
  events : List WEvent
  ok : Bool
deriving DecidableEq, Repr

/-- Events plus an updated worker state. -/
structure StateResult where
  events : List WEvent
  state : WorkerState
deriving DecidableEq, Repr

/-- Result of `_submit_run_and_capture_errors`: trace, captured outcome,
the payload the started callback was invoked with, and the state. -/
structure CaptureResult where
  events : List WEvent
  outcome : CaptureOutcome
  startedWith : StartPayload
  state : WorkerState
deriving DecidableEq, Repr

/-- Result of the admission loop: trace, state, and the runs handed to
`start_soon` (the submitter tasks spawned this cycle). -/
structure AdmitResult where
  events : List WEvent
  state : WorkerState
  queued : List FlowRun
deriving DecidableEq, Repr

/-- Result of one poll cycle: trace, state, the list the call returns, and
the runs spawned this cycle. -/
structure CycleResult where
  events : List WEvent
  state : WorkerState
  returned : List FlowRun
  queued : List FlowRun
deriving DecidableEq, Repr

/-! ## Submitter pipeline -/

/-- `_check_flow_run`: when the run comes from a deployment, read it and
fail (raise `ValueError`, modelled as `ok := false`) if the deployment is
configured with a storage block. -/
def _check_flow_run (env : ClientEnv) (fr : FlowRun) : FlagResult :=
  match fr.deployment_id with
  | none => { events := [], ok := true }
  | some did =>
      { events := [WEvent.readDeployment did]
        ok := (env.deployments did).storage_document_id.isNone }

/-- `_propose_pending_state`: propose Pending; on `Abort`, on any other
exception, or when the server substitutes a non-pending state, report not
ready to submit. -/
def _propose_pending_state (env : ClientEnv) (fr : FlowRun) : FlagResult :=
  { events := [WEvent.proposeState fr.id StateType.pending ""]
    ok := match env.pendingOutcome fr.id with
          | ProposeOutcome.ok st => st == StateType.pending
          | ProposeOutcome.abortSignal => false
          | ProposeOutcome.raisesExc => false }

/-- `_propose_failed_state`: propose Failed with the submission-failure
message; `Abort` and other exceptions are swallowed, so only the call is
recorded. -/
def _propose_failed_state (fr : FlowRun) : List WEvent :=
  [WEvent.proposeState fr.id StateType.failed "Submission failed."]

/-- Message of the Crashed proposal for a non-zero exit status. -/
def crashedMessage (status_code : Int) : String :=
  "Flow run infrastructure exited with non-zero status code " ++
    toString status_code ++ "."

/-- `_propose_crashed_state`: propose Crashed with the given message;
outcomes are swallowed, so only the call is recorded. -/
def _propose_crashed_state (fr : FlowRun) (message : String) : List WEvent :=
  [WEvent.proposeState fr.id StateType.crashed message]

/-- `_get_configuration`: read the deployment and the flow, then render and
prepare the configuration.  `env.configOk` abstracts whether any of these
steps raises; on failure the later client call is not reached. -/
def _get_configuration (env : ClientEnv) (fr : FlowRun) : FlagResult :=
  if env.configOk fr.id then
    { events := [WEvent.readDeployment (fr.deployment_id.getD 0),
                 WEvent.readFlow fr.flow_id]
      ok := true }
  else
    { events := [WEvent.readDeployment (fr.deployment_id.getD 0)], ok := false }

/-- `self._limiter.release_on_behalf_of(flow_run.id)` guarded by
`if self._limiter:`. -/
def releaseLimiter (s : WorkerState) (rid : Nat) : StateResult :=
  if s.hasLimiter then
    { events := [WEvent.releaseSlot rid]
      state := { s with borrowed := s.borrowed.erase rid } }
  else
    { events := [], state := s }

/-- `_submit_run_and_capture_errors`: resolve the configuration, emit the
submitted event, call the infrastructure `run`; an exception raised before
the started callback yields `started(exc)` then a Failed proposal; an
exception after started is only logged; the limiter slot is always released
in the `finally` block; a normal return without started forces `started()`;
a non-zero status code yields a Crashed proposal.  Exceptions are captured
and returned, never raised to the task group, so the embedding is a total
function.  The supervised `start` is modelled by running the task to
completion and exposing the payload the started callback received. -/
def _submit_run_and_capture_errors (env : ClientEnv) (s : WorkerState)
    (fr : FlowRun) : CaptureResult :=
  let cfg := _get_configuration env fr
  if cfg.ok then
    let pre := cfg.events ++ [WEvent.emitSubmittedEvent fr.id, WEvent.runInfra fr.id]
    let rel := releaseLimiter s fr.id
    match env.runBehavior fr.id with
    | RunBehavior.raisesBeforeStarted =>
        { events := pre ++ [WEvent.startedCb fr.id StartPayload.excPayload] ++
            _propose_failed_state fr ++ rel.events
          outcome := CaptureOutcome.excResult
          startedWith := StartPayload.excPayload
          state := rel.state }
    | RunBehavior.startsThenRaises identifier =>
        { events := pre ++ [WEvent.startedCb fr.id (StartPayload.ident identifier)] ++
            rel.events
          outcome := CaptureOutcome.excResult
          startedWith := StartPayload.ident identifier
          state := rel.state }
    | RunBehavior.startsThenReturns identifier status_code =>
        { events := pre ++ [WEvent.startedCb fr.id (StartPayload.ident identifier)] ++
            rel.events ++
            (if status_code ≠ 0 then
              _propose_crashed_state fr (crashedMessage status_code) else [])
          outcome := CaptureOutcome.okResult ⟨identifier, status_code⟩
          startedWith := StartPayload.ident identifier
          state := rel.state }
    | RunBehavior.returnsWithoutStarted identifier status_code =>
        { events := pre ++ rel.events ++
            [WEvent.startedCb fr.id StartPayload.unitPayload] ++
            (if status_code ≠ 0 then
              _propose_crashed_state fr (crashedMessage status_code) else [])
          outcome := CaptureOutcome.okResult ⟨identifier, status_code⟩
          startedWith := StartPayload.unitPayload
          state := rel.state }
  else
    let rel := releaseLimiter s fr.id
    { events := cfg.events ++ [WEvent.startedCb fr.id StartPayload.excPayload] ++
        _propose_failed_state fr ++ rel.events
      outcome := CaptureOutcome.excResult
      startedWith := StartPayload.excPayload
      state := rel.state }

/-- `_submit_run`: run the precheck; on failure log and remove the run from
the in-flight set and return (the source releases no limiter slot on this
path); otherwise propose Pending and, when ready, start the supervised
capture task and record the `infrastructure_pid` when the started payload is
a truthy identifier (the update call may raise, which is caught and logged);
when not ready, release the limiter slot; finally remove the run from the
in-flight set.  `updateEventsFor` models the guarded
`update_flow_run(flow_run_id, infrastructure_pid=str(readiness_result))`
call: it happens only when the readiness result is truthy and not an
exception (the call itself may raise, which is caught and logged). -/
def updateEventsFor (rid : Nat) (p : StartPayload) : List WEvent :=
  match p with
  | StartPayload.ident identifier =>
      if identifier = "" then [] else [WEvent.updateFlowRun rid identifier]
  | StartPayload.excPayload => []
  | StartPayload.unitPayload => []

def _submit_run (env : ClientEnv) (s : WorkerState) (fr : FlowRun) :
    StateResult :=
  let check := _check_flow_run env fr
  if check.ok then
    let pend := _propose_pending_state env fr
    if pend.ok then
      let cap := _submit_run_and_capture_errors env s fr
      let upd := updateEventsFor fr.id cap.startedWith
      { events := check.events ++ pend.events ++ cap.events ++ upd
        state := { cap.state with submitting := cap.state.submitting.erase fr.id } }
    else
      let rel := releaseLimiter s fr.id
      { events := check.events ++ pend.events ++ rel.events
        state := { rel.state with submitting := rel.state.submitting.erase fr.id } }
  else
    { events := check.events ++ [WEvent.logPrecheckFailed fr.id]
      state := { s with submitting := s.submitting.erase fr.id } }

/-! ## Poll cycle -/

/-- Comparison used to sort candidates: ascending
`next_scheduled_start_time`. -/
def leNSST (a b : FlowRun) : Bool :=
  decide (a.next_scheduled_start_time ≤ b.next_scheduled_start_time)

/-- `submittable_flow_runs.sort(key=lambda run: run.next_scheduled_start_time)`:
a stable sort on the scheduled start time only. -/
def sortRuns (runs : List FlowRun) : List FlowRun :=
  runs.mergeSort leNSST

/-- Limiter admission test: `acquire_on_behalf_of_nowait` raises
`WouldBlock` iff all tokens are borrowed (the test is skipped when no
limiter is configured). -/
def wouldBlock (s : WorkerState) : Bool :=
  s.hasLimiter && s.limit ≤ s.borrowed.length

/-- Admission loop of `_submit_scheduled_flow_runs`: iterate the sorted
candidates; skip a run already in the in-flight set; on `WouldBlock` log
and break out of the loop; otherwise acquire a token, insert into the
in-flight set, and queue the submitter task (`start_soon`).  The queued
tasks do not run inside the loop: the loop body has no suspension point, so
every spawned submitter starts only after the cycle returns. -/
def admitLoop : List FlowRun → WorkerState → AdmitResult
  | [], s => { events := [], state := s, queued := [] }
  | fr :: rest, s =>
      if fr.id ∈ s.submitting then
        admitLoop rest s
      else if wouldBlock s then
        { events := [WEvent.logInfoLimitReached], state := s, queued := [] }
      else
        let s1 : WorkerState :=
          { s with
            borrowed := if s.hasLimiter then fr.id :: s.borrowed else s.borrowed
            submitting := fr.id :: s.submitting }
        let tail := admitLoop rest s1
        { events := (if s.hasLimiter then [WEvent.acquireSlot fr.id] else []) ++
            tail.events
          state := tail.state
          queued := fr :: tail.queued }

/-- `_submit_scheduled_flow_runs`: sort the responses by scheduled start
time, run the admission loop, and return the sorted candidates whose ids
are in the in-flight set after the loop. -/
def _submit_scheduled_flow_runs (s : WorkerState)
    (flow_run_response : List WorkerFlowRunResponse) : CycleResult :=
  let submittable := sortRuns (flow_run_response.map (·.flow_run))
  let admitted := admitLoop submittable s
  { events := admitted.events
    state := admitted.state
    returned := submittable.filter (fun r => decide (r.id ∈ admitted.state.submitting))
    queued := admitted.queued }

/-- `scheduled_before = pendulum.now("utc").add(seconds=int(self._prefetch_seconds))`. -/
def scheduledBefore (env : ClientEnv) (s : WorkerState) : Int :=
  env.now + pyInt s.prefetchSeconds

/-- `_get_scheduled_flow_runs`: query runs scheduled before the prefetch
bound; a missing work pool (`ObjectNotFound`) yields the empty list. -/
def _get_scheduled_flow_runs (env : ClientEnv) (s : WorkerState) :
    List WEvent × List WorkerFlowRunResponse :=
  match env.scheduledRunsResult with
  | some resp => ([WEvent.getScheduledRuns (scheduledBefore env s)], resp)
  | none => ([WEvent.getScheduledRuns (scheduledBefore env s)], [])

/-- `get_and_submit_flow_runs`: fetch the scheduled runs, then submit them.
No other operation is performed by this method. -/
def get_and_submit_flow_runs (env : ClientEnv) (s : WorkerState) : CycleResult :=
  let fetch := _get_scheduled_flow_runs env s
  let cycle := _submit_scheduled_flow_runs s fetch.2
  { cycle with events := fetch.1 ++ cycle.events }

/-! ## Backend synchronisation -/

/-- Continuation of `_update_local_work_pool_info` once a work pool was read
or created: warn when the remote type changed and disagrees with the worker
type (the source compares `getattr(self._work_pool, "type", 0)`, a sentinel
that differs from every string when no pool is cached), install the default
base job template server-side when the pool has none, and cache the pool. -/
def _work_pool_loaded (s : WorkerState) (evts : List WEvent) (wp : WorkPool) :
    StateResult :=
  let mismatch :=
    if (s.workPool.map (·.ptype) ≠ some wp.ptype) ∧ wp.ptype ≠ s.workerType then
      [WEvent.logWarnTypeMismatch]
    else []
  match wp.base_job_template with
  | none =>
      let wp1 : WorkPool := { wp with base_job_template := some s.defaultBaseJobTemplate }
      { events := evts ++ mismatch ++ [WEvent.updateWorkPool]
        state := { s with workPool := some wp1 } }
  | some _ =>
      { events := evts ++ mismatch, state := { s with workPool := some wp } }

/-- `_update_local_work_pool_info`: read the work pool; when missing, create
it if `create_pool_if_not_found` is set, else warn and return without
touching the cached pool. -/
def _update_local_work_pool_info (env : ClientEnv) (s : WorkerState) :
    StateResult :=
  match env.readWorkPoolResult with
  | some wp => _work_pool_loaded s [WEvent.readWorkPool] wp
  | none =>
      if s.createPoolIfNotFound then
        _work_pool_loaded s
          [WEvent.readWorkPool, WEvent.createWorkPool, WEvent.logInfoPoolCreated]
          env.createdWorkPool
      else
        { events := [WEvent.readWorkPool, WEvent.logWarnPoolNotFound], state := s }

/-- `_send_worker_heartbeat`: heartbeat only when a work pool is cached. -/
def _send_worker_heartbeat (s : WorkerState) : List WEvent :=
  match s.workPool with
  | some _ => [WEvent.sendWorkerHeartbeat]
  | none => []

/-- `sync_with_backend`: update the local work-pool information, then send
the heartbeat. -/
def sync_with_backend (env : ClientEnv) (s : WorkerState) : StateResult :=
  let upd := _update_local_work_pool_info env s
  { events := upd.events ++ _send_worker_heartbeat upd.state, state := upd.state }

/-! ## Event classification helpers -/

/-- Events that belong to the backend-sync step (work-pool read, creation,
template reconciliation, heartbeat). -/
def isSyncEvent : WEvent → Bool
  | WEvent.readWorkPool => true
  | WEvent.createWorkPool => true
  | WEvent.updateWorkPool => true
  | WEvent.sendWorkerHeartbeat => true
  | _ => false

/-- State-proposal events. -/
def isProposeEvent : WEvent → Bool
  | WEvent.proposeState _ _ _ => true
  | _ => false

/-- State-proposal and infrastructure-run events, the alphabet over which
the Pending-before-run ordering is stated. -/
def isStateOrRunEvent : WEvent → Bool
  | WEvent.proposeState _ _ _ => true
  | WEvent.runInfra _ => true
  | _ => false

/-- Crashed proposals for the given run id. -/
def isCrashedProposalFor (rid : Nat) : WEvent → Bool
  | WEvent.proposeState r StateType.crashed _ => r == rid
  | _ => false

/-! ## Sorting lemmas -/

/-- The candidate comparison is transitive. -/
theorem leNSST_trans : ∀ a b c : FlowRun, leNSST a b = true → leNSST b c = true →
    leNSST a c = true := by
  intro a b c hab hbc
  simp only [leNSST, decide_eq_true_eq] at *
  exact le_trans hab hbc

/-- The candidate comparison is total. -/
theorem leNSST_total : ∀ a b : FlowRun, (leNSST a b || leNSST b a) = true := by
  intro a b
  simp only [leNSST, Bool.or_eq_true, decide_eq_true_eq]
  exact le_total _ _

/-- The sorted candidates are pairwise ordered by scheduled start time. -/
theorem sortRuns_sorted (l : List FlowRun) :
    (sortRuns l).Pairwise (fun a b => leNSST a b = true) :=
  List.sorted_mergeSort leNSST_trans leNSST_total l

/-- Sorting permutes the candidates. -/
theorem sortRuns_perm (l : List FlowRun) : (sortRuns l).Perm l :=
  List.mergeSort_perm l leNSST

/-- A list already pairwise ordered is left unchanged by the sort. -/
theorem sortRuns_eq_self {l : List FlowRun}
    (h : l.Pairwise (fun a b => leNSST a b = true)) : sortRuns l = l := by
  have hsub : l.Sublist (sortRuns l) :=
    List.sublist_mergeSort leNSST_trans leNSST_total h (List.Sublist.refl l)
  exact (hsub.eq_of_length (sortRuns_perm l).length_eq.symm).symm

/-- Stability of the sort: candidates sharing one scheduled start time keep
their order from the fetched response. -/
theorem sortRuns_filter_stable (l : List FlowRun) (k : Int) :
    (sortRuns l).filter (fun r => r.next_scheduled_start_time == k) =
      l.filter (fun r => r.next_scheduled_start_time == k) := by
  have hc_pairwise : (l.filter (fun r => r.next_scheduled_start_time == k)).Pairwise
      (fun a b => leNSST a b = true) := by
    apply List.pairwise_of_forall_mem_list
    intro a ha b hb
    have ha2 := (List.mem_filter.mp ha).2
    have hb2 := (List.mem_filter.mp hb).2
    simp only [beq_iff_eq] at ha2 hb2
    simp [leNSST, ha2, hb2]
  have hsub : (l.filter (fun r => r.next_scheduled_start_time == k)).Sublist
      (sortRuns l) :=
    List.sublist_mergeSort leNSST_trans leNSST_total hc_pairwise
      (List.filter_sublist l)
  have hid : (l.filter (fun r => r.next_scheduled_start_time == k)).filter
      (fun r => r.next_scheduled_start_time == k) =
      l.filter (fun r => r.next_scheduled_start_time == k) :=
    List.filter_eq_self.mpr (fun a ha => (List.mem_filter.mp ha).2)
  have hsub2 : (l.filter (fun r => r.next_scheduled_start_time == k)).Sublist
      ((sortRuns l).filter (fun r => r.next_scheduled_start_time == k)) := by
    have h2 := List.Sublist.filter (fun r => r.next_scheduled_start_time == k) hsub
    rwa [hid] at h2
  have hlen := (List.Perm.filter (fun r => r.next_scheduled_start_time == k)
    (sortRuns_perm l)).length_eq
  exact (hsub2.eq_of_length hlen.symm).symm

/-! ## Admission-loop lemmas -/

/-- The admission loop never removes an id from the in-flight set. -/
theorem admitLoop_submitting_mono (x : Nat) :
    ∀ (l : List FlowRun) (s : WorkerState), x ∈ s.submitting →
      x ∈ (admitLoop l s).state.submitting := by
  intro l
  induction l with
  | nil => intro s h; simpa [admitLoop] using h
  | cons fr rest ih =>
      intro s h
      by_cases h1 : fr.id ∈ s.submitting
      · simpa [admitLoop, h1] using ih s h
      · by_cases h2 : wouldBlock s
        · simpa [admitLoop, h1, h2] using h
        · have h2f : wouldBlock s = false := by simpa using h2
          simp only [admitLoop, if_neg h1, h2f, Bool.false_eq_true, if_false]
          exact ih _ (List.mem_cons_of_mem _ h)

/-- Every run queued by the admission loop came from the iterated list and
its id is in the in-flight set when the loop finishes. -/
theorem admitLoop_queued_mem :
    ∀ (l : List FlowRun) (s : WorkerState) (r : FlowRun),
      r ∈ (admitLoop l s).queued →
      r ∈ l ∧ r.id ∈ (admitLoop l s).state.submitting := by
  intro l
  induction l with
  | nil => intro s r h; simp [admitLoop] at h
  | cons fr rest ih =>
      intro s r h
      by_cases h1 : fr.id ∈ s.submitting
      · simp only [admitLoop, if_pos h1] at h ⊢
        exact ⟨List.mem_cons_of_mem _ (ih s r h).1, (ih s r h).2⟩
      · by_cases h2 : wouldBlock s
        · simp [admitLoop, h1, h2] at h
        · simp only [admitLoop, if_neg h1, h2, Bool.false_eq_true, ite_false] at h ⊢
          rcases List.mem_cons.mp h with hr | hr
          · subst hr
            refine ⟨List.mem_cons_self _ _, ?_⟩
            exact admitLoop_submitting_mono _ _ _ (List.mem_cons_self _ _)
          · exact ⟨List.mem_cons_of_mem _ (ih _ r hr).1, (ih _ r hr).2⟩

/-- The admission loop emits no backend-sync event. -/
theorem admitLoop_events_nonsync :
    ∀ (l : List FlowRun) (s : WorkerState) (e : WEvent),
      e ∈ (admitLoop l s).events → isSyncEvent e = false := by
  intro l
  induction l with
  | nil => intro s e h; simp [admitLoop] at h
  | cons fr rest ih =>
      intro s e h
      by_cases h1 : fr.id ∈ s.submitting
      · exact ih s e (by simpa [admitLoop, h1] using h)
      · by_cases h2 : wouldBlock s
        · simp [admitLoop, h1, h2] at h
          simp [h, isSyncEvent]
        · simp only [admitLoop, if_neg h1, h2, Bool.false_eq_true, ite_false,
            List.mem_append] at h
          rcases h with h | h
          · rcases s.hasLimiter with _ | _ <;> simp_all [isSyncEvent]
          · exact ih _ e h

/-! ## Sample inputs used by witnesses and counterexamples -/

/-- A work pool with a template already set. -/
def wpSample : WorkPool :=
  { pname := "pool-a", ptype := "process", base_job_template := some 1 }

/-- A flow run from a deployment without a storage block. -/
def frSample : FlowRun :=
  { id := 1, fname := "r1", deployment_id := some 4, flow_id := 9,
    next_scheduled_start_time := 5 }

/-- Baseline environment: every external call succeeds, the Pending
proposal is accepted, and the infrastructure starts then exits cleanly. -/
def baseEnv : ClientEnv :=
  { now := 100
    deployments := fun d => { id := d, dname := "dep", storage_document_id := none }
    readWorkPoolResult := some wpSample
    createdWorkPool := wpSample
    scheduledRunsResult := some []
    pendingOutcome := fun _ => ProposeOutcome.ok StateType.pending
    configOk := fun _ => true
    runBehavior := fun _ => RunBehavior.startsThenReturns "infra-1" 0
    updateFlowRunRaises := false }

/-- Baseline worker state: limiter of capacity two, nothing in flight. -/
def baseState : WorkerState :=
  { workerType := "process", createPoolIfNotFound := true, workPool := some wpSample,
    defaultBaseJobTemplate := 1, prefetchSeconds := 10, hasLimiter := true,
    limit := 2, borrowed := [], submitting := [] }

/-! ## Claim theorems -/

/-- C9: an empty-string command is coerced to unset, and after
`prepare_for_flow_run` the command equals the user-provided command when one
is set and otherwise equals the default engine command. -/
theorem command_coercion_and_default (cfg : BaseJobConfiguration) (fr : FlowRun)
    (baseEnvironment : List (String × Option String))
    (deployment_labels flow_labels : List (String × String)) (version : String) :
    _coerce_command (some "") = none ∧
    (∀ c : String, c ≠ "" →
      (prepare_for_flow_run { cfg with command := _coerce_command (some c) } fr
        baseEnvironment deployment_labels flow_labels version).command = some c) ∧
    (prepare_for_flow_run { cfg with command := _coerce_command none } fr
        baseEnvironment deployment_labels flow_labels version).command =
      some "python -m prefect.engine" ∧
    (prepare_for_flow_run { cfg with command := _coerce_command (some "") } fr
        baseEnvironment deployment_labels flow_labels version).command =
      some "python -m prefect.engine" := by
  refine ⟨rfl, ?_, rfl, rfl⟩
  intro c hc
  simp [prepare_for_flow_run, _coerce_command, pyOrStr, hc]

/-- Witness for C9 at a concrete configuration and command. -/
theorem command_coercion_and_default_witness :
    (("echo hi" : String) ≠ "") ∧
    (prepare_for_flow_run
        { command := _coerce_command (some "echo hi"), jenv := [], labels := [],
          jname := none } frSample [] [] [] "2.8").command = some "echo hi" := by
  have h := command_coercion_and_default
    { command := none, jenv := [], labels := [], jname := none }
    frSample [] [] [] "2.8"
  exact ⟨by decide, h.2.1 "echo hi" (by decide)⟩

/-- C10: the scheduled-before bound equals now plus the prefetch window
truncated toward zero by `int()`; the bound is within one second of the
configured window. -/
theorem scheduled_before_truncates_prefetch (env : ClientEnv) (s : WorkerState) :
    (0 ≤ s.prefetchSeconds →
      scheduledBefore env s = env.now + ⌊s.prefetchSeconds⌋ ∧
      ((scheduledBefore env s - env.now : Int) : ℚ) ≤ s.prefetchSeconds ∧
      s.prefetchSeconds < ((scheduledBefore env s - env.now : Int) : ℚ) + 1) ∧
    (s.prefetchSeconds < 0 →
      scheduledBefore env s = env.now + ⌈s.prefetchSeconds⌉ ∧
      s.prefetchSeconds ≤ ((scheduledBefore env s - env.now : Int) : ℚ) ∧
      ((scheduledBefore env s - env.now : Int) : ℚ) - 1 < s.prefetchSeconds) := by
  constructor
  · intro h
    have he : scheduledBefore env s = env.now + ⌊s.prefetchSeconds⌋ := by
      simp [scheduledBefore, pyInt, h]
    refine ⟨he, ?_, ?_⟩
    · rw [he]
      push_cast
      have := Int.floor_le s.prefetchSeconds
      linarith
    · rw [he]
      push_cast
      have := Int.lt_floor_add_one s.prefetchSeconds
      linarith
  · intro h
    have hn : ¬ (0 ≤ s.prefetchSeconds) := not_le.mpr h
    have he : scheduledBefore env s = env.now + ⌈s.prefetchSeconds⌉ := by
      simp [scheduledBefore, pyInt, hn]
    refine ⟨he, ?_, ?_⟩
    · rw [he]
      push_cast
      have := Int.le_ceil s.prefetchSeconds
      linarith
    · rw [he]
      push_cast
      have := Int.ceil_lt_add_one s.prefetchSeconds
      linarith

/-- Witness for C10: a prefetch of 10.9 seconds yields a 10-second
look-ahead from now = 100. -/
theorem scheduled_before_truncates_prefetch_witness :
    (0 ≤ ((109 : ℚ) / 10)) ∧
    scheduledBefore baseEnv { baseState with prefetchSeconds := 109 / 10 } = 110 := by
  have h := (scheduled_before_truncates_prefetch baseEnv
    { baseState with prefetchSeconds := 109 / 10 }).1 (by norm_num)
  refine ⟨by norm_num, ?_⟩
  have hf : ⌊((109 : ℚ) / 10)⌋ = 10 := by
    rw [Int.floor_eq_iff]
    norm_num
  rw [h.1]
  simp only [baseEnv]
  rw [hf]
  decide

/-- C3: within one cycle the candidates are iterated in ascending scheduled
start time; a run already in flight is skipped with iteration continuing,
and on the first would-block the loop stops admitting, leaving the state
unchanged and queueing no further run. -/
theorem cycle_admission_order (flow_run_response : List WorkerFlowRunResponse)
    (s : WorkerState) (fr : FlowRun) (rest : List FlowRun) :
    (sortRuns (flow_run_response.map (·.flow_run))).Pairwise
      (fun a b => a.next_scheduled_start_time ≤ b.next_scheduled_start_time) ∧
    (fr.id ∈ s.submitting → admitLoop (fr :: rest) s = admitLoop rest s) ∧
    (fr.id ∉ s.submitting → wouldBlock s = true →
      (admitLoop (fr :: rest) s).state = s ∧
      (admitLoop (fr :: rest) s).queued = []) := by
  refine ⟨?_, ?_, ?_⟩
  · exact (sortRuns_sorted _).imp (fun h => by simpa [leNSST] using h)
  · intro h
    simp [admitLoop, h]
  · intro h1 h2
    simp [admitLoop, h1, h2]

/-- Witness for C3: a run already in flight is skipped, and a full limiter
stops the loop with the state unchanged. -/
theorem cycle_admission_order_witness :
    (admitLoop [frSample] { baseState with submitting := [1] } =
      admitLoop [] { baseState with submitting := [1] }) ∧
    (admitLoop [frSample] { baseState with limit := 0 }).state =
      { baseState with limit := 0 } := by
  have h1 := (cycle_admission_order [] { baseState with submitting := [1] }
    frSample []).2.1 (by decide)
  have h2 := (cycle_admission_order [] { baseState with limit := 0 }
    frSample []).2.2 (by decide) (by decide)
  exact ⟨h1, h2.1⟩

/-- C5: when the infrastructure call raises before the started callback,
the capture task proposes Failed, invokes started with the exception,
releases the limiter slot, and returns the captured exception (the
embedding is a total function: nothing escapes to the task group). -/
theorem capture_launch_failure (env : ClientEnv) (s : WorkerState) (fr : FlowRun)
    (hcfg : env.configOk fr.id = true)
    (hrun : env.runBehavior fr.id = RunBehavior.raisesBeforeStarted)
    (hlim : s.hasLimiter = true) :
    WEvent.proposeState fr.id StateType.failed "Submission failed." ∈
      (_submit_run_and_capture_errors env s fr).events ∧
    WEvent.startedCb fr.id StartPayload.excPayload ∈
      (_submit_run_and_capture_errors env s fr).events ∧
    WEvent.releaseSlot fr.id ∈ (_submit_run_and_capture_errors env s fr).events ∧
    (_submit_run_and_capture_errors env s fr).outcome = CaptureOutcome.excResult := by
  simp [_submit_run_and_capture_errors, _get_configuration, hcfg, hrun,
    _propose_failed_state, releaseLimiter, hlim]

/-- Witness for C5 at the baseline worker with a launch-failing backend. -/
theorem capture_launch_failure_witness :
    WEvent.proposeState 1 StateType.failed "Submission failed." ∈
      (_submit_run_and_capture_errors
        { baseEnv with runBehavior := fun _ => RunBehavior.raisesBeforeStarted }
        baseState frSample).events ∧
    WEvent.startedCb 1 StartPayload.excPayload ∈
      (_submit_run_and_capture_errors
        { baseEnv with runBehavior := fun _ => RunBehavior.raisesBeforeStarted }
        baseState frSample).events ∧
    WEvent.releaseSlot 1 ∈
      (_submit_run_and_capture_errors
        { baseEnv with runBehavior := fun _ => RunBehavior.raisesBeforeStarted }
        baseState frSample).events ∧
    (_submit_run_and_capture_errors
        { baseEnv with runBehavior := fun _ => RunBehavior.raisesBeforeStarted }
        baseState frSample).outcome = CaptureOutcome.excResult :=
  capture_launch_failure
    { baseEnv with runBehavior := fun _ => RunBehavior.raisesBeforeStarted }
    baseState frSample rfl rfl rfl

/-- C6: when the infrastructure returns normally with a non-zero status
code, exactly one Crashed state is proposed, after `run` returns, with a
message containing the status code; with status code zero no state proposal
at all is made by the capture task. -/
theorem capture_nonzero_exit (env : ClientEnv) (s : WorkerState) (fr : FlowRun)
    (identifier : String) (status_code : Int)
    (hcfg : env.configOk fr.id = true)
    (hrun : env.runBehavior fr.id =
      RunBehavior.startsThenReturns identifier status_code) :
    (status_code ≠ 0 →
      ((_submit_run_and_capture_errors env s fr).events).filter
          (isCrashedProposalFor fr.id) =
        [WEvent.proposeState fr.id StateType.crashed (crashedMessage status_code)] ∧
      (∃ pre post, (_submit_run_and_capture_errors env s fr).events =
          pre ++ WEvent.runInfra fr.id :: post ∧
          WEvent.proposeState fr.id StateType.crashed (crashedMessage status_code)
            ∈ post) ∧
      (∃ a b, crashedMessage status_code = a ++ toString status_code ++ b)) ∧
    (status_code = 0 →
      ((_submit_run_and_capture_errors env s fr).events).filter isProposeEvent
        = []) := by
  constructor
  · intro hne
    refine ⟨?_, ?_, ?_⟩
    · by_cases hl : s.hasLimiter <;>
        simp [_submit_run_and_capture_errors, _get_configuration, hcfg, hrun,
          releaseLimiter, hl, hne, _propose_crashed_state, isCrashedProposalFor]
    · refine ⟨(_get_configuration env fr).events ++ [WEvent.emitSubmittedEvent fr.id],
        WEvent.startedCb fr.id (StartPayload.ident identifier) ::
          ((releaseLimiter s fr.id).events ++
            [WEvent.proposeState fr.id StateType.crashed
              (crashedMessage status_code)]), ?_, by simp⟩
      simp [_submit_run_and_capture_errors, _get_configuration, hcfg, hrun, hne,
        _propose_crashed_state]
    · exact ⟨"Flow run infrastructure exited with non-zero status code ", ".", rfl⟩
  · intro h0
    subst h0
    by_cases hl : s.hasLimiter <;>
      simp [_submit_run_and_capture_errors, _get_configuration, hcfg, hrun,
        releaseLimiter, hl, isProposeEvent]

/-- Witness for C6: status code 2 yields exactly the Crashed proposal with
the code in the message; status code 0 yields no proposal. -/
theorem capture_nonzero_exit_witness :
    ((_submit_run_and_capture_errors
        { baseEnv with runBehavior :=
            fun _ => RunBehavior.startsThenReturns "infra-1" 2 }
        baseState frSample).events).filter (isCrashedProposalFor 1) =
      [WEvent.proposeState 1 StateType.crashed (crashedMessage 2)] ∧
    ((_submit_run_and_capture_errors baseEnv baseState frSample).events).filter
        isProposeEvent = [] := by
  have h1 := capture_nonzero_exit
    { baseEnv with runBehavior := fun _ => RunBehavior.startsThenReturns "infra-1" 2 }
    baseState frSample "infra-1" 2 rfl rfl
  have h2 := capture_nonzero_exit baseEnv baseState frSample "infra-1" 0 rfl rfl
  exact ⟨(h1.1 (by decide)).1, h2.2 rfl⟩

/-- The precheck emits no state-proposal or infrastructure-run event. -/
theorem check_events_filter (env : ClientEnv) (fr : FlowRun) :
    ((_check_flow_run env fr).events).filter isStateOrRunEvent = [] := by
  cases h : fr.deployment_id <;> simp [_check_flow_run, h, isStateOrRunEvent]

/-- The precheck never calls the infrastructure. -/
theorem check_no_run_event (env : ClientEnv) (fr : FlowRun) (rid : Nat) :
    WEvent.runInfra rid ∉ (_check_flow_run env fr).events := by
  cases h : fr.deployment_id <;> simp [_check_flow_run, h]

/-- Configuration resolution emits no state-proposal or infrastructure-run
event. -/
theorem cfg_events_filter (env : ClientEnv) (fr : FlowRun) :
    ((_get_configuration env fr).events).filter isStateOrRunEvent = [] := by
  by_cases h : env.configOk fr.id <;> simp [_get_configuration, h, isStateOrRunEvent]

/-- The limiter release emits no state-proposal or infrastructure-run
event. -/
theorem release_events_filter (s : WorkerState) (rid : Nat) :
    ((releaseLimiter s rid).events).filter isStateOrRunEvent = [] := by
  by_cases h : s.hasLimiter <;> simp [releaseLimiter, h, isStateOrRunEvent]

/-- The limiter release never calls the infrastructure. -/
theorem release_no_run (s : WorkerState) (rid rid2 : Nat) :
    WEvent.runInfra rid2 ∉ (releaseLimiter s rid).events := by
  by_cases h : s.hasLimiter <;> simp [releaseLimiter, h]

/-- The guarded `infrastructure_pid` update emits no state-proposal or
infrastructure-run event. -/
theorem updateEventsFor_filter (rid : Nat) (p : StartPayload) :
    (updateEventsFor rid p).filter isStateOrRunEvent = [] := by
  rcases p with identifier | _ | _
  · by_cases h : identifier = "" <;> simp [updateEventsFor, h, isStateOrRunEvent]
  · simp [updateEventsFor]
  · simp [updateEventsFor]


/-- C4: the infrastructure `run` call happens only when the Pending
proposal returned a pending state, and among all state-proposal and
infrastructure-run events of the submitter the trace begins with the
successful Pending proposal immediately followed by the run call;
contrapositively, when the Pending proposal is aborted, raises, or returns
a non-pending state, `run` is never called. -/
theorem pending_before_run (env : ClientEnv) (s : WorkerState) (fr : FlowRun)
    (h : WEvent.runInfra fr.id ∈ (_submit_run env s fr).events) :
    env.pendingOutcome fr.id = ProposeOutcome.ok StateType.pending ∧
    (((_submit_run env s fr).events).filter isStateOrRunEvent).take 2 =
      [WEvent.proposeState fr.id StateType.pending "",
       WEvent.runInfra fr.id] := by
  by_cases hck : (_check_flow_run env fr).ok = true
  · by_cases hpd : (_propose_pending_state env fr).ok = true
    · have hpo : env.pendingOutcome fr.id = ProposeOutcome.ok StateType.pending := by
        have h2 := hpd
        simp only [_propose_pending_state] at h2
        rcases h3 : env.pendingOutcome fr.id with st | _ | _ <;>
          rw [h3] at h2 <;> simp at h2
        rw [h2]
      refine ⟨hpo, ?_⟩
      by_cases hcfg : env.configOk fr.id = true
      · rcases hrb : env.runBehavior fr.id with _ | identifier |
          ⟨identifier, code⟩ | ⟨identifier, code⟩
        · simp [_submit_run, hck, _propose_pending_state, hpo,
            _submit_run_and_capture_errors, _get_configuration, hcfg, hrb,
            _propose_failed_state, List.filter_append, check_events_filter,
            release_events_filter, updateEventsFor_filter, isStateOrRunEvent]
        · simp [_submit_run, hck, _propose_pending_state, hpo,
            _submit_run_and_capture_errors, _get_configuration, hcfg, hrb,
            List.filter_append, check_events_filter,
            release_events_filter, updateEventsFor_filter, isStateOrRunEvent]
        · by_cases hcode : code = 0 <;>
            simp [_submit_run, hck, _propose_pending_state, hpo,
              _submit_run_and_capture_errors, _get_configuration, hcfg, hrb,
              hcode, _propose_crashed_state, List.filter_append,
              check_events_filter, release_events_filter,
              updateEventsFor_filter, isStateOrRunEvent]
        · by_cases hcode : code = 0 <;>
            simp [_submit_run, hck, _propose_pending_state, hpo,
              _submit_run_and_capture_errors, _get_configuration, hcfg, hrb,
              hcode, _propose_crashed_state, List.filter_append,
              check_events_filter, release_events_filter,
              updateEventsFor_filter, isStateOrRunEvent]
      · exfalso
        simp [_submit_run, hck, _propose_pending_state, hpo,
          _submit_run_and_capture_errors, _get_configuration, hcfg,
          _propose_failed_state, updateEventsFor, List.mem_append,
          List.mem_cons, check_no_run_event env fr fr.id,
          release_no_run s fr.id fr.id] at h
    · exfalso
      have hpdf : (_propose_pending_state env fr).ok = false := by
        simpa using hpd
      simp only [_submit_run, hck, if_true, hpdf, Bool.false_eq_true,
        if_false] at h
      simp [_propose_pending_state, List.mem_append, List.mem_cons,
        check_no_run_event env fr fr.id, release_no_run s fr.id fr.id] at h
  · exfalso
    have hckf : (_check_flow_run env fr).ok = false := by
      simpa using hck
    simp only [_submit_run, hckf, Bool.false_eq_true, if_false] at h
    simp [List.mem_append, List.mem_cons, check_no_run_event env fr fr.id] at h

/-- Witness for C4: in the baseline run the filtered trace starts with the
accepted Pending proposal followed by the infrastructure call. -/
theorem pending_before_run_witness :
    baseEnv.pendingOutcome 1 = ProposeOutcome.ok StateType.pending ∧
    (((_submit_run baseEnv baseState frSample).events).filter
        isStateOrRunEvent).take 2 =
      [WEvent.proposeState 1 StateType.pending "", WEvent.runInfra 1] :=
  pending_before_run baseEnv baseState frSample (by decide)

/-! ## C1: the precheck-failure path and the limiter -/

/-- A deployment configured with a storage block. -/
def depWithStorage : Deployment :=
  { id := 3, dname := "dep-3", storage_document_id := some 9 }

/-- A flow run created from the storage-block deployment. -/
def frPrecheck : FlowRun :=
  { id := 7, fname := "r7", deployment_id := some 3, flow_id := 2,
    next_scheduled_start_time := 0 }

/-- Environment where every deployment read returns the storage-block
deployment. -/
def envPrecheck : ClientEnv :=
  { baseEnv with deployments := fun _ => depWithStorage }

/-- Worker state just after the admission loop admitted run 7: the id is in
flight and a limiter token is held on its behalf. -/
def statePrecheck : WorkerState :=
  { baseState with limit := 1, borrowed := [7], submitting := [7] }

/-- C1 (divergence of the code from the claim): on precheck failure the
submitter removes the run from the in-flight set, logs, and makes no state
proposal, but it never releases the limiter token for the run — the token
stays borrowed and no release event appears in the trace. -/
theorem submit_run_precheck_keeps_limiter_token :
    (_submit_run envPrecheck statePrecheck frPrecheck).state.submitting = [] ∧
    (_submit_run envPrecheck statePrecheck frPrecheck).state.borrowed = [7] ∧
    (_submit_run envPrecheck statePrecheck frPrecheck).events =
      [WEvent.readDeployment 3, WEvent.logPrecheckFailed 7] ∧
    WEvent.releaseSlot 7 ∉
      (_submit_run envPrecheck statePrecheck frPrecheck).events ∧
    (∀ e ∈ (_submit_run envPrecheck statePrecheck frPrecheck).events,
      isProposeEvent e = false) := by
  decide

/-! ## C2: polling versus backend synchronisation -/

/-- The fetch step always performs exactly the scheduled-runs query. -/
theorem fetch_events_eq (env : ClientEnv) (s : WorkerState) :
    (_get_scheduled_flow_runs env s).1 =
      [WEvent.getScheduledRuns (scheduledBefore env s)] := by
  rcases h : env.scheduledRunsResult <;> simp [_get_scheduled_flow_runs, h]

/-- Once a pool was read or created, the remaining pool-update events are
appended after the given prefix. -/
theorem work_pool_loaded_events_shape (s : WorkerState) (evts : List WEvent)
    (wp : WorkPool) :
    ∃ tail, (_work_pool_loaded s evts wp).events = evts ++ tail := by
  rcases h : wp.base_job_template with _ | t
  · exact ⟨(if (s.workPool.map (·.ptype) ≠ some wp.ptype) ∧ wp.ptype ≠ s.workerType
        then [WEvent.logWarnTypeMismatch] else []) ++ [WEvent.updateWorkPool],
      by simp [_work_pool_loaded, h]⟩
  · exact ⟨(if (s.workPool.map (·.ptype) ≠ some wp.ptype) ∧ wp.ptype ≠ s.workerType
        then [WEvent.logWarnTypeMismatch] else []),
      by simp [_work_pool_loaded, h]⟩

/-- Once a pool was read or created, a work pool is cached afterwards. -/
theorem work_pool_loaded_pool_some (s : WorkerState) (evts : List WEvent)
    (wp : WorkPool) :
    ∃ wp2, (_work_pool_loaded s evts wp).state.workPool = some wp2 := by
  rcases h : wp.base_job_template with _ | t
  · exact ⟨{ wp with base_job_template := some s.defaultBaseJobTemplate },
      by simp [_work_pool_loaded, h]⟩
  · exact ⟨wp, by simp [_work_pool_loaded, h]⟩

/-- C2 counterexample: a full poll cycle at the baseline performs no
work-pool read and no heartbeat — its whole trace is the fetch query — so
`get_and_submit_flow_runs` does not begin by syncing with the backend. -/
theorem get_and_submit_makes_no_sync_calls :
    (get_and_submit_flow_runs baseEnv baseState).events =
      [WEvent.getScheduledRuns (scheduledBefore baseEnv baseState)] ∧
    WEvent.readWorkPool ∉ (get_and_submit_flow_runs baseEnv baseState).events ∧
    WEvent.sendWorkerHeartbeat ∉
      (get_and_submit_flow_runs baseEnv baseState).events := by
  have hs : sortRuns ([] : List FlowRun) = [] := sortRuns_eq_self (by simp)
  refine ⟨?_, ?_, ?_⟩ <;>
    simp [get_and_submit_flow_runs, _get_scheduled_flow_runs,
      _submit_scheduled_flow_runs, baseEnv, baseState, hs, admitLoop]

/-- C2 amended: the poll cycle performs no backend-sync operation at all —
its trace starts with the scheduled-runs query — while the separate
`sync_with_backend` method reads the work pool first, warns and skips pool
creation and template reconciliation when the pool is missing and creation
is disabled, creates the pool and heartbeats when creation is enabled, and
heartbeats whenever the pool was read. -/
theorem sync_is_separate_from_polling (env : ClientEnv) (s : WorkerState) :
    (∀ e ∈ (get_and_submit_flow_runs env s).events, isSyncEvent e = false) ∧
    (get_and_submit_flow_runs env s).events.head? =
      some (WEvent.getScheduledRuns (scheduledBefore env s)) ∧
    (sync_with_backend env s).events.head? = some WEvent.readWorkPool ∧
    (env.readWorkPoolResult = none → s.createPoolIfNotFound = false →
      (sync_with_backend env s).events =
        [WEvent.readWorkPool, WEvent.logWarnPoolNotFound] ++
          _send_worker_heartbeat s ∧
      WEvent.createWorkPool ∉ (sync_with_backend env s).events ∧
      WEvent.updateWorkPool ∉ (sync_with_backend env s).events) ∧
    (env.readWorkPoolResult = none → s.createPoolIfNotFound = true →
      WEvent.createWorkPool ∈ (sync_with_backend env s).events ∧
      WEvent.sendWorkerHeartbeat ∈ (sync_with_backend env s).events) ∧
    (∀ wp, env.readWorkPoolResult = some wp →
      WEvent.sendWorkerHeartbeat ∈ (sync_with_backend env s).events) := by
  refine ⟨?_, ?_, ?_, ?_, ?_, ?_⟩
  · intro e he
    simp only [get_and_submit_flow_runs, _submit_scheduled_flow_runs,
      fetch_events_eq, List.mem_append, List.mem_singleton] at he
    rcases he with he | he
    · subst he
      rfl
    · exact admitLoop_events_nonsync _ _ e he
  · simp [get_and_submit_flow_runs, _submit_scheduled_flow_runs, fetch_events_eq]
  · rcases hrp : env.readWorkPoolResult with _ | wp
    · by_cases hcr : s.createPoolIfNotFound
      · obtain ⟨tail, htail⟩ := work_pool_loaded_events_shape s
          [WEvent.readWorkPool, WEvent.createWorkPool, WEvent.logInfoPoolCreated]
          env.createdWorkPool
        simp [sync_with_backend, _update_local_work_pool_info, hrp, hcr, htail]
      · simp [sync_with_backend, _update_local_work_pool_info, hrp, hcr]
    · obtain ⟨tail, htail⟩ := work_pool_loaded_events_shape s
        [WEvent.readWorkPool] wp
      simp [sync_with_backend, _update_local_work_pool_info, hrp, htail]
  · intro h1 h2
    rcases hsp : s.workPool with _ | wp0 <;>
      simp [sync_with_backend, _update_local_work_pool_info, h1, h2,
        _send_worker_heartbeat, hsp]
  · intro h1 h2
    obtain ⟨tail, htail⟩ := work_pool_loaded_events_shape s
      [WEvent.readWorkPool, WEvent.createWorkPool, WEvent.logInfoPoolCreated]
      env.createdWorkPool
    obtain ⟨wp2, hwp⟩ := work_pool_loaded_pool_some s
      [WEvent.readWorkPool, WEvent.createWorkPool, WEvent.logInfoPoolCreated]
      env.createdWorkPool
    simp [sync_with_backend, _update_local_work_pool_info, h1, h2, htail,
      _send_worker_heartbeat, hwp]
  · intro wp hwp
    obtain ⟨tail, htail⟩ := work_pool_loaded_events_shape s
      [WEvent.readWorkPool] wp
    obtain ⟨wp2, hwp2⟩ := work_pool_loaded_pool_some s [WEvent.readWorkPool] wp
    simp [sync_with_backend, _update_local_work_pool_info, hwp, htail,
      _send_worker_heartbeat, hwp2]

/-- Environment whose work-pool read reports not-found. -/
def envNoPool : ClientEnv := { baseEnv with readWorkPoolResult := none }

/-- Worker configured not to create a missing pool. -/
def stateNoCreate : WorkerState := { baseState with createPoolIfNotFound := false }

/-- Witness for the C2 amendment: the warn-and-skip branch and the
heartbeat-after-read branch at concrete inputs. -/
theorem sync_is_separate_from_polling_witness :
    ((sync_with_backend envNoPool stateNoCreate).events =
      [WEvent.readWorkPool, WEvent.logWarnPoolNotFound] ++
        _send_worker_heartbeat stateNoCreate) ∧
    WEvent.sendWorkerHeartbeat ∈ (sync_with_backend baseEnv baseState).events := by
  have h1 := (sync_is_separate_from_polling envNoPool stateNoCreate).2.2.2.1 rfl rfl
  have h2 := (sync_is_separate_from_polling baseEnv baseState).2.2.2.2.2 wpSample rfl
  exact ⟨h1.1, h2⟩

/-! ## C7: tie-breaking of the candidate sort -/

/-- A run with the larger id, listed first in the fetched response. -/
def frTieA : FlowRun :=
  { id := 2, fname := "tie-a", deployment_id := none, flow_id := 1,
    next_scheduled_start_time := 5 }

/-- A run with the smaller id, listed second, same scheduled start time. -/
def frTieB : FlowRun :=
  { id := 1, fname := "tie-b", deployment_id := none, flow_id := 1,
    next_scheduled_start_time := 5 }

/-- C7 counterexample: two candidates share a scheduled start time and the
larger id comes first in the response; the sort keeps them in response
order, so the output is not ordered by the (time, id) lexicographic
relation — ties are not broken by run id. -/
theorem sort_ties_not_broken_by_id :
    sortRuns [frTieA, frTieB] = [frTieA, frTieB] ∧
    frTieA.next_scheduled_start_time = frTieB.next_scheduled_start_time ∧
    frTieB.id < frTieA.id ∧
    ¬ List.Pairwise
        (fun a b => a.next_scheduled_start_time < b.next_scheduled_start_time ∨
          (a.next_scheduled_start_time = b.next_scheduled_start_time ∧
            a.id ≤ b.id))
        (sortRuns [frTieA, frTieB]) := by
  have hs : sortRuns [frTieA, frTieB] = [frTieA, frTieB] :=
    sortRuns_eq_self (by decide)
  refine ⟨hs, rfl, by decide, ?_⟩
  rw [hs]
  decide

/-- C7 amended: the candidates are sorted ascending by
`next_scheduled_start_time` with a stable sort — the output is a
permutation of the fetched list in which runs sharing a scheduled start
time keep their response order. -/
theorem sort_candidates_stable (l : List FlowRun) (k : Int) :
    (sortRuns l).Pairwise
      (fun a b => a.next_scheduled_start_time ≤ b.next_scheduled_start_time) ∧
    (sortRuns l).Perm l ∧
    (sortRuns l).filter (fun r => r.next_scheduled_start_time == k) =
      l.filter (fun r => r.next_scheduled_start_time == k) :=
  ⟨(sortRuns_sorted l).imp (fun h => by simpa [leNSST] using h),
   sortRuns_perm l, sortRuns_filter_stable l k⟩

/-! ## C8: the list returned by a poll cycle -/

/-- A flow run already admitted in an earlier cycle. -/
def frPrev : FlowRun :=
  { id := 5, fname := "r5", deployment_id := none, flow_id := 1,
    next_scheduled_start_time := 0 }

/-- Environment whose scheduled-runs query returns that run again. -/
def envPrev : ClientEnv :=
  { baseEnv with scheduledRunsResult := some [{ flow_run := frPrev }] }

/-- Worker state in which run 5 is still in flight from an earlier cycle. -/
def statePrev : WorkerState :=
  { baseState with submitting := [5], borrowed := [5] }

/-- C8 counterexample: run 5 was admitted in an earlier cycle and is still
in flight; the new cycle admits nothing and spawns nothing, yet the list it
returns contains run 5. -/
theorem returned_includes_previous_cycle_run :
    frPrev.id ∈ statePrev.submitting ∧
    (get_and_submit_flow_runs envPrev statePrev).queued = [] ∧
    (get_and_submit_flow_runs envPrev statePrev).state = statePrev ∧
    (get_and_submit_flow_runs envPrev statePrev).returned = [frPrev] := by
  have hs : sortRuns [frPrev] = [frPrev] := sortRuns_eq_self (by decide)
  have h1 : (get_and_submit_flow_runs envPrev statePrev).queued =
      (admitLoop (sortRuns [frPrev]) statePrev).queued := rfl
  have h2 : (get_and_submit_flow_runs envPrev statePrev).state =
      (admitLoop (sortRuns [frPrev]) statePrev).state := rfl
  have h3 : (get_and_submit_flow_runs envPrev statePrev).returned =
      (sortRuns [frPrev]).filter (fun r =>
        decide (r.id ∈ (admitLoop (sortRuns [frPrev]) statePrev).state.submitting)) :=
    rfl
  rw [hs] at h1 h2 h3
  refine ⟨by decide, ?_, ?_, ?_⟩
  · rw [h1]
    decide
  · rw [h2]
    decide
  · rw [h3]
    decide

/-- C8 amended: the cycle returns the sorted fetched runs whose ids are in
the in-flight set when the admission loop finishes; every run admitted this
cycle is included, but a run admitted in an earlier cycle that is fetched
again is returned as well. -/
theorem returned_is_inflight_filter (env : ClientEnv) (s : WorkerState) :
    (get_and_submit_flow_runs env s).returned =
      (sortRuns (((_get_scheduled_flow_runs env s).2).map (·.flow_run))).filter
        (fun r => decide (r.id ∈ (get_and_submit_flow_runs env s).state.submitting)) ∧
    (∀ r ∈ (get_and_submit_flow_runs env s).queued,
      r ∈ (get_and_submit_flow_runs env s).returned) := by
  constructor
  · rfl
  · intro r hr
    simp only [get_and_submit_flow_runs, _submit_scheduled_flow_runs] at hr ⊢
    have h2 := admitLoop_queued_mem _ _ r hr
    exact List.mem_filter.mpr ⟨h2.1, by simpa using h2.2⟩

/-- Witness for the C8 amendment: a freshly admitted run appears in the
returned list. -/
theorem returned_is_inflight_filter_witness :
    frPrev ∈ (get_and_submit_flow_runs envPrev baseState).returned := by
  have hq : frPrev ∈ (get_and_submit_flow_runs envPrev baseState).queued := by
    have hs : sortRuns [frPrev] = [frPrev] := sortRuns_eq_self (by decide)
    have h1 : (get_and_submit_flow_runs envPrev baseState).queued =
        (admitLoop (sortRuns [frPrev]) baseState).queued := rfl
    rw [hs] at h1
    rw [h1]
    decide
  exact (returned_is_inflight_filter envPrev baseState).2 frPrev hq
